/-
Verification of the Quickfolio deployment/wizard glue code.

Shallow embedding of:
  * the theme registry (`registerTheme` / `getTheme` / `getThemes`),
  * the Nebula HTML generator and its `escapeHTML` helper,
  * the Lynx TOML generator `generateTomlConfig` (the wall-clock year that
    `new Date().getFullYear()` reads is made an explicit argument),
  * the Next.js `/api/deploy` handler (its single backend `fetch` is modelled
    by consuming the head of a trace of would-be backend replies),
  * the `deploy-callback` page effect,
  * the create-wizard page state and its installation/repository handlers.

All definitions are translated from the TypeScript source; theorems settle
the specification claims about them.
-/
import Mathlib

namespace Quickfolio

/-! ## Data model (web/types/mvp.ts) -/

/-- Profile information for the link-in-bio page (ProfileData). -/
structure ProfileData where
  name : String
  headline : String
  avatar : String
  deriving Repr, DecidableEq

/-- Link data for the link-in-bio page (LinkData); `icon`/`type` are optional. -/
structure LinkData where
  text : String
  url : String
  icon : Option String
  type : Option String
  deriving Repr, DecidableEq

/-- Complete MVP content data structure (MVPContentData). -/
structure MVPContentData where
  profile : ProfileData
  links : List LinkData
  deriving Repr, DecidableEq

/-! ## Theme registry (themes/index.ts) -/

/-- Theme metadata (ThemeMeta). -/
structure ThemeMeta where
  id : String
  name : String
  description : String
  thumbnailSrc : String
  tags : List String
  deriving Repr, DecidableEq

/-- Result of a theme generator function (GeneratedOutput); the
GeneratedFileType union is modelled by its string tag. -/
structure GeneratedOutput where
  content : String
  filename : String
  fileType : String
  mimeType : String
  deriving Repr, DecidableEq

/-- Complete theme definition (Theme).  The React preview component is not
part of any claim and is omitted; the generator function is kept. -/
structure Theme where
  meta : ThemeMeta
  generator : MVPContentData → GeneratedOutput

/-- The registry `const themes: Record<string, Theme>`: a string-keyed JS
object, i.e. an association list without duplicate keys, preserving
insertion order. -/
abbrev ThemeRegistry := List (String × Theme)

/-- JS object assignment `themes[k] = v`: replace the value at an existing
key in place, otherwise append the new key at the end. -/
def recordSet : ThemeRegistry → String → Theme → ThemeRegistry
  | [], k, v => [(k, v)]
  | p :: r, k, v => if p.1 = k then (k, v) :: r else p :: recordSet r k v

/-- `registerTheme(theme)`: `themes[theme.meta.id] = theme` (overwriting an
already-registered id, after a console warning). -/
def registerTheme (r : ThemeRegistry) (t : Theme) : ThemeRegistry :=
  recordSet r t.meta.id t

/-- JS object lookup `themes[id]`. -/
def recordGet : ThemeRegistry → String → Option Theme
  | [], _ => none
  | p :: r, id => if p.1 = id then some p.2 else recordGet r id

/-- `getTheme(id)`: `themes[id]`, `undefined` when absent. -/
def getTheme (r : ThemeRegistry) (id : String) : Option Theme :=
  recordGet r id

/-- `getThemes()`: `Object.values(themes)`. -/
def getThemes (r : ThemeRegistry) : List Theme :=
  r.map (fun p => p.2)

/-- A registry built by registering each theme of `ts` in order, starting
from the empty module-level registry. -/
def registryOf (ts : List Theme) : ThemeRegistry :=
  ts.foldl registerTheme []

theorem recordGet_recordSet_self (r : ThemeRegistry) (k : String) (v : Theme) :
    recordGet (recordSet r k v) k = some v := by
  induction r with
  | nil => simp [recordSet, recordGet]
  | cons p r ih =>
    by_cases h : p.1 = k
    · simp [recordSet, recordGet, h]
    · simp [recordSet, recordGet, h, ih]

theorem recordGet_recordSet_ne (r : ThemeRegistry) (k id : String) (v : Theme)
    (h : k ≠ id) : recordGet (recordSet r k v) id = recordGet r id := by
  induction r with
  | nil => simp [recordSet, recordGet, h]
  | cons p r ih =>
    by_cases hp : p.1 = k
    · simp [recordSet, recordGet, hp, h]
    · simp [recordSet, recordGet, hp, ih]

theorem recordSet_recordSet_same (r : ThemeRegistry) (k : String) (v1 v2 : Theme) :
    recordSet (recordSet r k v1) k v2 = recordSet r k v2 := by
  induction r with
  | nil => simp [recordSet]
  | cons p r ih =>
    by_cases hp : p.1 = k
    · simp [recordSet, hp]
    · simp [recordSet, hp, ih]

theorem recordGet_registryOf_aux (ts : List Theme) (acc : ThemeRegistry) (id : String)
    (hid : id ∉ ts.map (fun t => t.meta.id)) (hacc : recordGet acc id = none) :
    recordGet (ts.foldl registerTheme acc) id = none := by
  induction ts generalizing acc with
  | nil => simpa using hacc
  | cons t ts ih =>
    simp only [List.map_cons, List.mem_cons, not_or] at hid
    refine ih _ hid.2 ?_
    rw [registerTheme, recordGet_recordSet_ne _ _ _ _ (fun h => hid.1 h.symm)]
    exact hacc

theorem mem_getThemes (r : ThemeRegistry) (t : Theme) :
    t ∈ getThemes r ↔ ∃ k, (k, t) ∈ r := by
  constructor
  · intro h
    rcases List.mem_map.mp h with ⟨p, hp, hpt⟩
    exact ⟨p.1, by simpa [← hpt] using hp⟩
  · rintro ⟨k, hk⟩
    exact List.mem_map.mpr ⟨(k, t), hk, rfl⟩

/-- C10: the theme registry is a store/lookup structure: a freshly registered
theme is found under its id; an id never registered over the whole
registration history resolves to `undefined`; re-registering an id replaces
the earlier registration entirely (most recent wins); and `getThemes`
enumerates exactly the currently registered themes. -/
theorem c10_theme_registry_roundtrip :
    (∀ (r : ThemeRegistry) (t : Theme), getTheme (registerTheme r t) t.meta.id = some t)
    ∧ (∀ (ts : List Theme) (id : String), id ∉ ts.map (fun t => t.meta.id) →
        getTheme (registryOf ts) id = none)
    ∧ (∀ (r : ThemeRegistry) (t1 t2 : Theme), t1.meta.id = t2.meta.id →
        registerTheme (registerTheme r t1) t2 = registerTheme r t2)
    ∧ (∀ (r : ThemeRegistry) (t : Theme), t ∈ getThemes r ↔ ∃ k, (k, t) ∈ r) := by
  refine ⟨?_, ?_, ?_, ?_⟩
  · intro r t
    exact recordGet_recordSet_self r t.meta.id t
  · intro ts id hid
    exact recordGet_registryOf_aux ts [] id hid rfl
  · intro r t1 t2 h
    unfold registerTheme
    rw [h]
    exact recordSet_recordSet_same r t2.meta.id t1 t2
  · exact mem_getThemes

/-- A concrete dummy generator used only by witnesses. -/
def dummyGenerator : MVPContentData → GeneratedOutput :=
  fun _ => { content := "", filename := "", fileType := "", mimeType := "" }

/-- A concrete Lynx-like theme used only by witnesses. -/
def lynxWitnessTheme : Theme :=
  { meta := { id := "lynx", name := "Lynx - Classic Hugo Theme", description := "minimal",
              thumbnailSrc := "/thumb.png", tags := ["minimal"] },
    generator := dummyGenerator }

/-- C10 witness: the round-trip laws evaluated on a concrete theme and id. -/
theorem c10_theme_registry_roundtrip_witness :
    getTheme (registerTheme [] lynxWitnessTheme) "lynx" = some lynxWitnessTheme
    ∧ getTheme (registryOf [lynxWitnessTheme]) "nebula" = none
    ∧ registerTheme (registerTheme [] lynxWitnessTheme) lynxWitnessTheme
        = registerTheme [] lynxWitnessTheme := by
  refine ⟨?_, ?_, ?_⟩
  · exact c10_theme_registry_roundtrip.1 [] lynxWitnessTheme
  · exact c10_theme_registry_roundtrip.2.1 [lynxWitnessTheme] "nebula" (by decide)
  · exact c10_theme_registry_roundtrip.2.2.1 [] lynxWitnessTheme lynxWitnessTheme rfl

/-! ## escapeHTML and the Nebula theme generator (themes/nebula/generator.ts)

The template literals of the source are carried over verbatim as the
`nebulaSeg*` / `linkCardSeg*` / `svg*` string constants below, split at the
`${...}` interpolation points. -/

def nebulaSeg1 : String := "<!DOCTYPE html>\n<html lang=\"en\">\n<head>\n  <meta charset=\"UTF-8\">\n  <meta name=\"viewport\" content=\"width=device-width, initial-scale=1.0\">\n  <title>"

def nebulaSeg2 : String := " - Link-in-Bio</title>\n  <meta name=\"description\" content=\""

def nebulaSeg3 : String := "\">\n  <style>\n    /* Reset and base styles */\n    *, *::before, *::after \x7b\n      box-sizing: border-box;\n      margin: 0;\n      padding: 0;\n    \x7d\n    \n    body \x7b\n      font-family: \x27Inter\x27, -apple-system, BlinkMacSystemFont, \x27Segoe UI\x27, Roboto, Oxygen, Ubuntu, Cantarell, \x27Open Sans\x27, \x27Helvetica Neue\x27, sans-serif;\n      line-height: 1.6;\n      background: linear-gradient(135deg, #1a0b2e 0%, #2a1b3e 100%);\n      min-height: 100vh;\n      display: flex;\n      justify-content: center;\n      align-items: center;\n      padding: 20px;\n      color: white;\n    \x7d\n    \n    .container \x7b\n      max-width: 1000px;\n      width: 100%;\n      display: flex;\n      flex-direction: column;\n      gap: 30px;\n      padding: 40px 20px;\n    \x7d\n    \n    @media (min-width: 768px) \x7b\n      .container \x7b\n        flex-direction: row;\n        align-items: flex-start;\n      \x7d\n    \x7d\n    \n    /* Profile styles */\n    .profile \x7b\n      display: flex;\n      flex-direction: column;\n      align-items: center;\n      text-align: center;\n      flex: 1;\n    \x7d\n    \n    @media (min-width: 768px) \x7b\n      .profile \x7b\n        align-items: flex-start;\n        text-align: left;\n      \x7d\n    \x7d\n    \n    .avatar \x7b\n      width: 220px;\n      height: 220px;\n      border-radius: 8px;\n      overflow: hidden;\n      margin-bottom: 20px;\n      box-shadow: 0 4px 20px rgba(123, 64, 255, 0.25);\n      background-color: rgba(123, 64, 255, 0.15);\n      display: flex;\n      justify-content: center;\n      align-items: center;\n    \x7d\n    \n    .name \x7b\n      font-size: 1.6rem;\n      font-weight: 700;\n      color: white;\n      margin-bottom: 6px;\n    \x7d\n    \n    .headline \x7b\n      color: rgba(255, 255, 255, 0.8);\n      margin-bottom: 12px;\n      font-size: 1rem;\n    \x7d\n    \n    .location \x7b\n      display: flex;\n      align-items: center;\n      color: rgba(255, 255, 255, 0.6);\n      font-size: 0.875rem;\n    \x7d\n    \n    .location svg \x7b\n      margin-right: 8px;\n    \x7d\n    \n    /* Links section */\n    .links-section \x7b\n      flex: 2;\n      display: flex;\n      flex-direction: column;\n      gap: 14px;\n    \x7d\n    \n    .links-title \x7b\n      font-size: 1.2rem;\n      margin-bottom: 20px;\n      padding-bottom: 12px;\n      border-bottom: 1px solid rgba(255, 255, 255, 0.2);\n    \x7d\n    \n    .links-container \x7b\n      display: flex;\n      flex-direction: column;\n      gap: 14px;\n    \x7d\n    \n    .link-card \x7b\n      display: flex;\n      align-items: center;\n      background: rgba(26, 11, 46, 0.75);\n      backdrop-filter: blur(10px);\n      border: 1px solid rgba(123, 64, 255, 0.1);\n      box-shadow: 0 4px 20px rgba(123, 64, 255, 0.15);\n      border-radius: 8px;\n      padding: 16px;\n      color: white;\n      text-decoration: none;\n      transition: all 0.2s ease-in-out;\n    \x7d\n    \n    .link-card:hover \x7b\n      transform: translateY(-2px);\n      box-shadow: 0 8px 25px rgba(123, 64, 255, 0.25);\n      border-color: rgba(123, 64, 255, 0.3);\n    \x7d\n    \n    .link-icon \x7b\n      margin-right: 16px;\n      color: rgba(255, 255, 255, 0.8);\n      display: flex;\n      align-items: center;\n      justify-content: center;\n    \x7d\n    \n    .link-icon svg \x7b\n      width: 24px;\n      height: 24px;\n    \x7d\n    \n    .link-text \x7b\n      font-weight: 500;\n    \x7d\n    \n    /* Footer */\n    .footer \x7b\n      text-align: center;\n      margin-top: 40px;\n      color: rgba(255, 255, 255, 0.4);\n      font-size: 0.75rem;\n    \x7d\n    \n    .footer a \x7b\n      color: rgba(255, 255, 255, 0.6);\n      text-decoration: none;\n    \x7d\n  </style>\n</head>\n<body>\n  <div class=\"container\">\n    <!-- Profile Section -->\n    <div class=\"profile\">\n      <div class=\"avatar\">\n        <!-- Avatar would go here in production - using placeholder for now -->\n        <svg xmlns=\"http://www.w3.org/2000/svg\" width=\"64\" height=\"64\" viewBox=\"0 0 24 24\" fill=\"rgba(255,255,255,0.7)\">\n          <path d=\"M12 2C6.48 2 2 6.48 2 12s4.48 10 10 10 10-4.48 10-10S17.52 2 12 2zm0 3c1.66 0 3 1.34 3 3s-1.34 3-3 3-3-1.34-3-3 1.34-3 3-3zm0 14.2c-2.5 0-4.71-1.28-6-3.22.03-1.99 4-3.08 6-3.08 1.99 0 5.97 1.09 6 3.08-1.29 1.94-3.5 3.22-6 3.22z\" />\n        </svg>\n      </div>\n      \n      <h1 class=\"name\">"

def nebulaSeg4 : String := "</h1>\n      <p class=\"headline\">"

def nebulaSeg5 : String := "</p>\n      \n      <div class=\"location\">\n        <svg xmlns=\"http://www.w3.org/2000/svg\" width=\"16\" height=\"16\" viewBox=\"0 0 20 20\" fill=\"currentColor\">\n          <path fill-rule=\"evenodd\" d=\"M5.05 4.05a7 7 0 119.9 9.9L10 18.9l-4.95-4.95a7 7 0 010-9.9zM10 11a2 2 0 100-4 2 2 0 000 4z\" clip-rule=\"evenodd\" />\n        </svg>\n        <span>London/Paris</span>\n      </div>\n    </div>\n    \n    <!-- Links Section -->\n    <div class=\"links-section\">\n      <h2 class=\"links-title\">Links</h2>\n      \n      <div class=\"links-container\">\n        "

def nebulaSeg6 : String := "\n      </div>\n    </div>\n  </div>\n  \n  <div class=\"footer\">\n    <p>Generated with <a href=\"https://github.com/socrabytes/quickfolio\" target=\"_blank\">Quickfolio</a></p>\n  </div>\n</body>\n</html>"

def linkCardSeg1 : String := "\n      <a href=\""

def linkCardSeg2 : String := "\" class=\"link-card\" target=\"_blank\" rel=\"noopener noreferrer\">\n        <div class=\"link-icon\">"

def linkCardSeg3 : String := "</div>\n        <div class=\"link-text\">"

def linkCardSeg4 : String := "</div>\n      </a>\n    "

def svgLinkedin : String := "<svg xmlns=\"http://www.w3.org/2000/svg\" viewBox=\"0 0 24 24\" width=\"24\" height=\"24\" fill=\"currentColor\">\n        <path d=\"M19 3a2 2 0 0 1 2 2v14a2 2 0 0 1-2 2H5a2 2 0 0 1-2-2V5a2 2 0 0 1 2-2h14m-.5 15.5v-5.3a3.26 3.26 0 0 0-3.26-3.26c-.85 0-1.84.52-2.32 1.3v-1.11h-2.79v8.37h2.79v-4.93c0-.77.62-1.4 1.39-1.4a1.4 1.4 0 0 1 1.4 1.4v4.93h2.79M6.88 8.56a1.68 1.68 0 0 0 1.68-1.68c0-.93-.75-1.69-1.68-1.69a1.69 1.69 0 0 0-1.69 1.69c0 .93.76 1.68 1.69 1.68m1.39 9.94v-8.37H5.5v8.37h2.77z\" />\n      </svg>"

def svgGithub : String := "<svg xmlns=\"http://www.w3.org/2000/svg\" viewBox=\"0 0 24 24\" width=\"24\" height=\"24\" fill=\"currentColor\">\n        <path d=\"M12 2A10 10 0 0 0 2 12c0 4.42 2.87 8.17 6.84 9.5.5.08.66-.23.66-.5v-1.69c-2.77.6-3.36-1.34-3.36-1.34-.46-1.16-1.11-1.47-1.11-1.47-.91-.62.07-.6.07-.6 1 .07 1.53 1.03 1.53 1.03.87 1.52 2.34 1.07 2.91.83.09-.65.35-1.09.63-1.34-2.22-.25-4.55-1.11-4.55-4.92 0-1.11.38-2 1.03-2.71-.1-.25-.45-1.29.1-2.64 0 0 .84-.27 2.75 1.02.79-.22 1.65-.33 2.5-.33.85 0 1.71.11 2.5.33 1.91-1.29 2.75-1.02 2.75-1.02.55 1.35.2 2.39.1 2.64.65.71 1.03 1.6 1.03 2.71 0 3.82-2.34 4.66-4.57 4.91.36.31.69.92.69 1.85V21c0 .27.16.59.67.5C19.14 20.16 22 16.42 22 12A10 10 0 0 0 12 2z\" />\n      </svg>"

def svgTwitter : String := "<svg xmlns=\"http://www.w3.org/2000/svg\" viewBox=\"0 0 24 24\" width=\"24\" height=\"24\" fill=\"currentColor\">\n        <path d=\"M22.46 6c-.77.35-1.6.58-2.46.69.88-.53 1.56-1.37 1.88-2.38-.83.5-1.75.85-2.72 1.05C18.37 4.5 17.26 4 16 4c-2.35 0-4.27 1.92-4.27 4.29 0 .34.04.67.11.98C8.28 9.09 5.11 7.38 3 4.79c-.37.63-.58 1.37-.58 2.15 0 1.49.75 2.81 1.91 3.56-.71 0-1.37-.2-1.95-.5v.03c0 2.08 1.48 3.82 3.44 4.21a4.22 4.22 0 0 1-1.93.07 4.28 4.28 0 0 0 4 2.98 8.521 8.521 0 0 1-5.33 1.84c-.34 0-.68-.02-1.02-.06C3.44 20.29 5.7 21 8.12 21 16 21 20.33 14.46 20.33 8.79c0-.19 0-.37-.01-.56.84-.6 1.56-1.36 2.14-2.23z\" />\n      </svg>"

def svgBlog : String := "<svg xmlns=\"http://www.w3.org/2000/svg\" viewBox=\"0 0 24 24\" width=\"24\" height=\"24\" fill=\"currentColor\">\n        <path d=\"M19 5v14H5V5h14m0-2H5c-1.1 0-2 .9-2 2v14c0 1.1.9 2 2 2h14c1.1 0 2-.9 2-2V5c0-1.1-.9-2-2-2z\" />\n        <path d=\"M14 17H7v-2h7v2zm3-4H7v-2h10v2zm0-4H7V7h10v2z\" />\n      </svg>"

def svgEnvelope : String := "<svg xmlns=\"http://www.w3.org/2000/svg\" viewBox=\"0 0 24 24\" width=\"24\" height=\"24\" fill=\"currentColor\">\n        <path d=\"M20 4H4c-1.1 0-1.99.9-1.99 2L2 18c0 1.1.9 2 2 2h16c1.1 0 2-.9 2-2V6c0-1.1-.9-2-2-2zm0 4l-8 5-8-5V6l8 5 8-5v2z\" />\n      </svg>"

def svgDefault : String := "<svg xmlns=\"http://www.w3.org/2000/svg\" viewBox=\"0 0 24 24\" width=\"24\" height=\"24\" fill=\"currentColor\">\n        <path d=\"M3.9 12c0-1.71 1.39-3.1 3.1-3.1h4V7H7c-2.76 0-5 2.24-5 5s2.24 5 5 5h4v-1.9H7c-1.71 0-3.1-1.39-3.1-3.1zM8 13h8v-2H8v2zm9-6h-4v1.9h4c1.71 0 3.1 1.39 3.1 3.1s-1.39 3.1-3.1 3.1h-4V17h4c2.76 0 5-2.24 5-5s-2.24-5-5-5z\" />\n      </svg>"

def tomlSeg1 : String := "baseURL = \"https://example.com/\" # Replace with your actual domain\nlanguageCode = \"en-us\"\ntitle = \""

def tomlSeg2 : String := "&apos;s Links\"\ntheme = \"lynx\"\n\n[params]\n  author = \""

def tomlSeg3 : String := "\"\n  description = \""

def tomlSeg4 : String := "\"\n  copyright = \"  "

def tomlSeg5 : String := " "

def tomlSeg6 : String := ". All rights reserved.\"\n  \n  # Avatar settings\n  avatar = \""

def tomlSeg7 : String := "\" # Default if not provided by AI\n  favicon = \"favicon.ico\" # Make sure you have this in your static folder\n  \n  # Social icons and other settings can be added here if needed by Lynx\n  # For MVP, we\x27re focusing on profile and main links.\n\n[profile]\n  name = \""

def tomlSeg8 : String := "\"\n  headline = \""

def tomlSeg9 : String := "\"\n  # avatar is usually handled by params.avatar in Lynx\n\n"

/-- The double-quote character. -/
def quoteChar : Char := Char.ofNat 34

/-- The single-quote (apostrophe) character. -/
def aposChar : Char := Char.ofNat 39

/-- One global single-character replacement `str.replace(/pat/g, rep)`. -/
def replaceAll (pat : Char) (rep : List Char) : List Char → List Char
  | [] => []
  | c :: cs => (if c = pat then rep else [c]) ++ replaceAll pat rep cs

/-- `escapeHTML(str)`: the five sequential global replacements of the
source, ampersand first. -/
def escapeHTML (str : String) : String :=
  String.mk (replaceAll aposChar "&#039;".data
    (replaceAll quoteChar "&quot;".data
      (replaceAll '>' "&gt;".data
        (replaceAll '<' "&lt;".data
          (replaceAll '&' "&amp;".data str.data)))))

/-- `getIconSVG(iconName)`: empty for a missing/empty icon name, otherwise a
case-insensitive switch over the known icon names with a default shape. -/
def getIconSVG : Option String → String
  | none => ""
  | some iconName =>
    if iconName = "" then ""
    else
      match iconName.toLower with
      | "linkedin" => svgLinkedin
      | "github" => svgGithub
      | "twitter" => svgTwitter
      | "blog" => svgBlog
      | "envelope" => svgEnvelope
      | "email" => svgEnvelope
      | _ => svgDefault

/-- One link card of the Nebula page: url and text pass through
`escapeHTML`, the icon through `getIconSVG`. -/
def linkCardHTML (link : LinkData) : String :=
  linkCardSeg1 ++ escapeHTML link.url ++ linkCardSeg2 ++ getIconSVG link.icon
    ++ linkCardSeg3 ++ escapeHTML link.text ++ linkCardSeg4

/-- JS `Array.prototype.join(sep)`. -/
def joinWith (sep : String) : List String → String
  | [] => ""
  | [s] => s
  | s :: rest => s ++ sep ++ joinWith sep rest

/-- `links.map(...).join('\n')`. -/
def linksHTML (links : List LinkData) : String :=
  joinWith "\n" (links.map linkCardHTML)

/-- `generateNebulaHTML(data)`: the full HTML document with the profile
name, headline and links interpolated (each user field escaped). -/
def generateNebulaHTML (data : MVPContentData) : GeneratedOutput :=
  { content :=
      nebulaSeg1 ++ escapeHTML data.profile.name
        ++ nebulaSeg2 ++ escapeHTML data.profile.headline
        ++ nebulaSeg3 ++ escapeHTML data.profile.name
        ++ nebulaSeg4 ++ escapeHTML data.profile.headline
        ++ nebulaSeg5 ++ linksHTML data.links ++ nebulaSeg6,
    filename := "index.html",
    fileType := "html",
    mimeType := "text/html" }

/-! ## The Lynx TOML generator (pages/create.tsx, generateTomlConfig)

The source reads the wall clock once, `new Date().getFullYear()`; that year
is an explicit argument of the embedding. -/

/-- JS `String.prototype.trim()`: strip whitespace from both ends. -/
def jsTrim (s : String) : String :=
  String.mk (((s.data.dropWhile Char.isWhitespace).reverse.dropWhile Char.isWhitespace).reverse)

/-- One `[[params.links]]` block appended per link; `icon`/`type` lines are
present only when the field is truthy. -/
def tomlLinkBlock (link : LinkData) : String :=
  "\n[[params.links]]\n  text = \"" ++ link.text ++ "\"\n  url = \"" ++ link.url ++ "\"\n"
    ++ (match link.icon with
        | some i => if i = "" then "" else "  icon = \"" ++ i ++ "\""
        | none => "")
    ++ "\n"
    ++ (match link.type with
        | some ty => if ty = "" then "" else "  type = \"" ++ ty ++ "\""
        | none => "")
    ++ "\n"

/-- `generateTomlConfig(content)`: the Hugo/Lynx TOML configuration, with
the current year interpolated into the copyright line and the whole result
trimmed. -/
def generateTomlConfig (content : MVPContentData) (year : Nat) : String :=
  (tomlSeg1 ++ content.profile.name ++ tomlSeg2 ++ content.profile.name ++ tomlSeg3
    ++ content.profile.headline ++ tomlSeg4 ++ toString year ++ tomlSeg5
    ++ content.profile.name ++ tomlSeg6
    ++ (if content.profile.avatar = "" then "avatar.png" else content.profile.avatar)
    ++ tomlSeg7 ++ content.profile.name ++ tomlSeg8 ++ content.profile.headline ++ tomlSeg9
    ++ String.join (content.links.map tomlLinkBlock)) |> jsTrim

/-- Concrete content used by counterexamples and witnesses. -/
def sampleContent : MVPContentData :=
  { profile := { name := "Alice", headline := "Engineer", avatar := "avatar.jpg" },
    links := [{ text := "GitHub", url := "https://github.com/alice", icon := some "github",
                type := some "social" }] }

set_option maxRecDepth 100000 in
/-- C4 counterexample: packaging is not a function of (files/content,
themeId) alone — `generateTomlConfig` also reads the wall clock, so the same
content generated in 2024 and in 2025 yields different output (the
copyright line differs). -/
theorem c4_counterexample_year_dependence :
    generateTomlConfig sampleContent 2024 ≠ generateTomlConfig sampleContent 2025 := by
  decide

/-- C4 (amended): each generator is a deterministic, side-effect-free
function of its declared inputs: `generateTomlConfig` of (content, current
year) — equal content at an equal year gives equal output — and
`generateNebulaHTML` of the profile name, headline and links only (the
avatar field does not influence it, and it has no clock input at all). -/
theorem c4_generators_deterministic :
    (∀ (content : MVPContentData) (y1 y2 : Nat), y1 = y2 →
        generateTomlConfig content y1 = generateTomlConfig content y2)
    ∧ (∀ (name headline a1 a2 : String) (links : List LinkData),
        generateNebulaHTML { profile := { name := name, headline := headline, avatar := a1 },
                             links := links }
          = generateNebulaHTML { profile := { name := name, headline := headline, avatar := a2 },
                                 links := links }) := by
  constructor
  · intro content y1 y2 h
    rw [h]
  · intro name headline a1 a2 links
    rfl

/-- C4 witness: the determinism laws evaluated at concrete content, year and
avatar values. -/
theorem c4_generators_deterministic_witness :
    generateTomlConfig sampleContent 2025 = generateTomlConfig sampleContent 2025
    ∧ generateNebulaHTML { profile := { name := "Alice", headline := "Engineer",
                                        avatar := "a.png" }, links := [] }
        = generateNebulaHTML { profile := { name := "Alice", headline := "Engineer",
                                            avatar := "b.png" }, links := [] } := by
  constructor
  · exact c4_generators_deterministic.1 sampleContent 2025 2025 rfl
  · exact c4_generators_deterministic.2 "Alice" "Engineer" "a.png" "b.png" []

/-! ## C9: escaping removes markup characters -/

theorem mem_replaceAll {x pat : Char} {rep l : List Char}
    (h : x ∈ replaceAll pat rep l) : x ∈ rep ∨ (x ∈ l ∧ x ≠ pat) := by
  induction l with
  | nil => simp [replaceAll] at h
  | cons c cs ih =>
    rw [replaceAll] at h
    rcases List.mem_append.mp h with h1 | h2
    · by_cases hc : c = pat
      · rw [if_pos hc] at h1
        exact Or.inl h1
      · rw [if_neg hc] at h1
        simp only [List.mem_singleton] at h1
        subst h1
        exact Or.inr ⟨List.mem_cons_self _ _, hc⟩
    · rcases ih h2 with h | ⟨hm, hne⟩
      · exact Or.inl h
      · exact Or.inr ⟨List.mem_cons_of_mem _ hm, hne⟩

theorem mem_of_mem_replaceAll {x pat : Char} {rep l : List Char}
    (hrep : x ∉ rep) (h : x ∈ replaceAll pat rep l) : x ∈ l :=
  ((mem_replaceAll h).resolve_left hrep).1

theorem not_mem_replaceAll_self {x : Char} {rep l : List Char}
    (hrep : x ∉ rep) : x ∉ replaceAll x rep l :=
  fun h => ((mem_replaceAll h).resolve_left hrep).2 rfl

theorem lt_not_mem_escapeHTML (s : String) : '<' ∉ (escapeHTML s).data := by
  intro h
  simp only [escapeHTML] at h
  have h4 := mem_of_mem_replaceAll (by decide) h
  have h3 := mem_of_mem_replaceAll (by decide) h4
  have h2 := mem_of_mem_replaceAll (by decide) h3
  exact not_mem_replaceAll_self (by decide) h2

theorem gt_not_mem_escapeHTML (s : String) : '>' ∉ (escapeHTML s).data := by
  intro h
  simp only [escapeHTML] at h
  have h4 := mem_of_mem_replaceAll (by decide) h
  have h3 := mem_of_mem_replaceAll (by decide) h4
  exact not_mem_replaceAll_self (by decide) h3

theorem quote_not_mem_escapeHTML (s : String) : quoteChar ∉ (escapeHTML s).data := by
  intro h
  simp only [escapeHTML] at h
  have h4 := mem_of_mem_replaceAll (by decide) h
  exact not_mem_replaceAll_self (by decide) h4

theorem apos_not_mem_escapeHTML (s : String) : aposChar ∉ (escapeHTML s).data := by
  intro h
  simp only [escapeHTML] at h
  exact not_mem_replaceAll_self (by decide) h

/-- Number of occurrences of a character in a string. -/
def countChar (c : Char) (s : String) : Nat :=
  s.data.count c

theorem string_data_append (a b : String) : (a ++ b).data = a.data ++ b.data := rfl

theorem countChar_append (c : Char) (a b : String) :
    countChar c (a ++ b) = countChar c a + countChar c b := by
  simp [countChar, string_data_append, List.count_append]

theorem countChar_lt_escapeHTML (s : String) : countChar '<' (escapeHTML s) = 0 :=
  List.count_eq_zero.mpr (lt_not_mem_escapeHTML s)

theorem countChar_lt_linkCard (l1 l2 : LinkData) (h : l1.icon = l2.icon) :
    countChar '<' (linkCardHTML l1) = countChar '<' (linkCardHTML l2) := by
  simp [linkCardHTML, countChar_append, countChar_lt_escapeHTML, h]

theorem countChar_lt_linksHTML (l1 l2 : List LinkData)
    (h : l1.map LinkData.icon = l2.map LinkData.icon) :
    countChar '<' (linksHTML l1) = countChar '<' (linksHTML l2) := by
  induction l1 generalizing l2 with
  | nil =>
    cases l2 with
    | nil => rfl
    | cons b l2 => simp at h
  | cons a l1 ih =>
    cases l2 with
    | nil => simp at h
    | cons b l2 =>
      simp only [List.map_cons, List.cons.injEq] at h
      cases l1 with
      | nil =>
        cases l2 with
        | nil =>
          simp only [linksHTML, List.map_cons, List.map_nil, joinWith]
          exact countChar_lt_linkCard a b h.1
        | cons => simp at h
      | cons c l1 =>
        cases l2 with
        | nil => simp at h
        | cons d l2 =>
          have ha := countChar_lt_linkCard a b h.1
          have hrest := ih (d :: l2) h.2
          simp only [linksHTML, List.map_cons, joinWith] at hrest ⊢
          rw [countChar_append, countChar_append, ha, hrest,
            countChar_append, countChar_append]

/-- C9: `escapeHTML` yields a string free of the literal markup characters
less-than, greater-than, double quote and single quote; consequently the
markup structure of the generated Nebula page does not depend on any
user-supplied text: two content values whose links carry the same icon
names produce documents with exactly the same number of
less-than (tag-opening) characters, whatever their names, headlines, urls
and link texts. -/
theorem c9_escape_html_safety :
    (∀ (s : String) (x : Char), x ∈ (escapeHTML s).data →
        x ≠ '<' ∧ x ≠ '>' ∧ x ≠ quoteChar ∧ x ≠ aposChar)
    ∧ (∀ d1 d2 : MVPContentData,
        d1.links.map LinkData.icon = d2.links.map LinkData.icon →
        countChar '<' (generateNebulaHTML d1).content
          = countChar '<' (generateNebulaHTML d2).content) := by
  constructor
  · intro s x hx
    refine ⟨?_, ?_, ?_, ?_⟩
    · rintro rfl
      exact lt_not_mem_escapeHTML s hx
    · rintro rfl
      exact gt_not_mem_escapeHTML s hx
    · rintro rfl
      exact quote_not_mem_escapeHTML s hx
    · rintro rfl
      exact apos_not_mem_escapeHTML s hx
  · intro d1 d2 h
    simp only [generateNebulaHTML, countChar_append, countChar_lt_escapeHTML]
    rw [countChar_lt_linksHTML d1.links d2.links h]

/-- C9 witness: the safety properties evaluated on concrete malicious
input: a character of the escaped form of an injection attempt, and two
concrete content values differing only in user text. -/
theorem c9_escape_html_safety_witness :
    ('a' ≠ '<' ∧ 'a' ≠ '>' ∧ 'a' ≠ quoteChar ∧ 'a' ≠ aposChar)
    ∧ countChar '<' (generateNebulaHTML sampleContent).content
        = countChar '<' (generateNebulaHTML
            { profile := { name := "<img src=x>", headline := "\x27injected\x27",
                           avatar := "avatar.jpg" },
              links := [{ text := "<b>bold</b>", url := "javascript:alert(1)",
                          icon := some "github", type := some "social" }] }).content := by
  constructor
  · exact c9_escape_html_safety.1 "<script>alert(1)</script>" 'a' (by decide)
  · exact c9_escape_html_safety.2 sampleContent _ rfl

/-! ## The deploy API route (web/pages/api/deploy.ts)

The handler validates the request, builds a multipart form, performs a
single `fetch` against `API_BASE_URL + "/deploy"` and relays the backend's
answer.  JS truthiness of a possibly-absent string field is modelled by
emptiness; the one `fetch` is modelled by consuming the head of a trace of
would-be backend replies, and every forwarded form body is recorded. -/

/-- `API_BASE_URL` (the `process.env.NEXT_PUBLIC_API_URL` fallback). -/
def apiBaseUrl : String := "http://localhost:8000"

/-- The deploy request as the handler reads it from `req`: the method and
the body fields; an absent or empty field is the empty string (both are
falsy in JS). -/
structure DeployRequest where
  method : String
  access_token : String
  repo_name : String
  theme_id : String
  content : String
  deriving Repr, DecidableEq

/-- What one backend `fetch` would answer: the HTTP status, the body parsed
as a JSON object when it is one (an association list of string fields), and
the raw body text. -/
structure BackendReply where
  status : Nat
  json : Option (List (String × String))
  text : String
  deriving Repr, DecidableEq

/-- The reply used when the trace is exhausted (irrelevant to the claims;
any value serves). -/
def noReply : BackendReply :=
  { status := 500, json := none, text := "" }

/-- The HTTP response the handler sends back (`res.status(...).json(...)`),
with the JSON body as an association list of string fields. -/
structure HttpResponse where
  status : Nat
  body : List (String × String)
  deriving Repr, DecidableEq

/-- Everything observable about one handler run: the client response, the
form bodies forwarded to the backend, and the console log lines. -/
structure HandlerResult where
  response : HttpResponse
  forwards : List (List (String × String))
  logs : List String
  deriving Repr, DecidableEq

/-- First field of that name in a JSON object, `undefined` when absent. -/
def lookupField (fields : List (String × String)) (k : String) : Option String :=
  (fields.find? (fun p => p.1 == k)).map (fun p => p.2)

/-- The `console.log('Request body:', {...req.body, access_token: ... ?
'[REDACTED]' : undefined})` line: every body field is printed except the
access token, which is rendered as `[REDACTED]` when present. -/
def renderBodyLog (req : DeployRequest) : String :=
  "Request body: repo_name=" ++ req.repo_name ++ " theme_id=" ++ req.theme_id
    ++ " content=" ++ req.content ++ " access_token="
    ++ (if req.access_token = "" then "undefined" else "[REDACTED]")

/-- The handler's parameter validation: POST method, truthy `access_token`,
truthy `content`. -/
def isValidDeploy (req : DeployRequest) : Bool :=
  req.method == "POST" && req.access_token != "" && req.content != ""

/-- The multipart form sent to the backend: token, empty resume data, the
generated content, the theme (defaulting to `lynx`), and the repository
name only when truthy. -/
def deployFormData (req : DeployRequest) : List (String × String) :=
  [("access_token", req.access_token),
   ("resume_data", "\x7b\x7d"),
   ("generated_content", req.content),
   ("theme", if req.theme_id = "" then "lynx" else req.theme_id)]
    ++ (if req.repo_name = "" then [] else [("repo_name", req.repo_name)])

/-- The `/api/deploy` handler on one request, given the trace of replies
the backend would produce for successive fetches (exactly one is consumed
when the request is valid; none otherwise). -/
def handler (req : DeployRequest) (backendTrace : List BackendReply) : HandlerResult :=
  if req.method ≠ "POST" then
    { response := { status := 405, body := [("error", "Method not allowed")] },
      forwards := [],
      logs := ["Deploy API handler called"] }
  else if req.access_token = "" then
    { response := { status := 400, body := [("error", "Missing access_token parameter")] },
      forwards := [],
      logs := ["Deploy API handler called", renderBodyLog req] }
  else if req.content = "" then
    { response := { status := 400, body := [("error", "Missing content parameter")] },
      forwards := [],
      logs := ["Deploy API handler called", renderBodyLog req] }
  else
    let formData := deployFormData req
    let reply := backendTrace.headD noReply
    let logs0 := ["Deploy API handler called", renderBodyLog req,
                  "Sending request to backend: " ++ apiBaseUrl ++ "/deploy",
                  "Backend response status: " ++ toString reply.status]
    if 200 ≤ reply.status ∧ reply.status < 300 then
      match reply.json with
      | some fields =>
        { response := { status := 200, body := fields },
          forwards := [formData],
          logs := logs0 ++ ["Success response from backend: " ++ reply.text] }
      | none =>
        { response := { status := 500,
                        body := [("error", "Invalid response format from backend"),
                                 ("detail", "The backend returned a non-JSON response")] },
          forwards := [formData],
          logs := logs0 ++ ["Success response from backend: " ++ reply.text,
                            "Failed to parse success response as JSON"] }
    else
      let errorDataDetail :=
        match reply.json with
        | some fields => lookupField fields "detail"
        | none => some (if reply.text = "" then "Unknown error from backend" else reply.text)
      let detail :=
        match errorDataDetail with
        | some d => if d = "" then "Unknown error" else d
        | none => "Unknown error"
      { response := { status := reply.status,
                      body := [("error", "Deployment failed"), ("detail", detail)] },
        forwards := [formData],
        logs := logs0 ++ ["Error response from backend: " ++ reply.text] }

/-- A sequence of deploy requests processed in order against the backend:
each run consumes from the trace the replies it fetched. -/
def processDeploys : List DeployRequest → List BackendReply → List HandlerResult
  | [], _ => []
  | r :: rs, trace =>
    let h := handler r trace
    h :: processDeploys rs (trace.drop h.forwards.length)

/-- Total number of form bodies forwarded to the backend (each one is an
externally observable platform write request). -/
def totalForwards (results : List HandlerResult) : Nat :=
  (results.map (fun h => h.forwards.length)).sum

theorem handler_forwards_length (req : DeployRequest) (trace : List BackendReply) :
    (handler req trace).forwards.length = if isValidDeploy req then 1 else 0 := by
  by_cases hm : req.method = "POST"
  · by_cases ht : req.access_token = ""
    · simp [handler, isValidDeploy, hm, ht]
    · by_cases hc : req.content = ""
      · simp [handler, isValidDeploy, hm, ht, hc]
      · by_cases hok : 200 ≤ (trace.head?.getD noReply).status
            ∧ (trace.head?.getD noReply).status < 300
        · cases hj : (trace.head?.getD noReply).json <;>
            simp [handler, isValidDeploy, hm, ht, hc, hok, hj]
        · simp [handler, isValidDeploy, hm, ht, hc, hok]
  · simp [handler, isValidDeploy, hm]

/-- A concrete valid deploy request used by counterexamples and witnesses. -/
def sampleRequest : DeployRequest :=
  { method := "POST", access_token := "ghs_sampletoken", repo_name := "site",
    theme_id := "lynx", content := "\x7b\"profile\":\x7b\x7d\x7d" }

/-- A concrete successful backend reply (the backend's DeploymentResponse
shape). -/
def okReply : BackendReply :=
  { status := 200,
    json := some [("deployment_url", "https://alice.github.io/site"),
                  ("repository_url", "https://github.com/alice/site"),
                  ("message", "Deployment successful")],
    text := "ok" }

/-- C1 counterexample: deploying the identical request twice issues two
platform write requests — the handler keeps no record of fingerprints, so
the second identical deploy is forwarded again instead of resolving to a
`Skipped` state, and its response is the ordinary success body. -/
theorem c1_counterexample_no_idempotency :
    totalForwards (processDeploys [sampleRequest, sampleRequest] [okReply, okReply]) = 2
    ∧ (processDeploys [sampleRequest, sampleRequest] [okReply, okReply]).map
        (fun h => h.response.status) = [200, 200] := by
  constructor
  · rfl
  · rfl

/-- C1 (amended): the deploy endpoint is stateless with respect to content:
every request passing validation is forwarded to the backend, regardless of
any earlier identical request, so a sequence of requests issues exactly one
platform write per valid request — there is no fingerprint-based
short-circuit and no `Skipped` state. -/
theorem c1_amended_every_valid_request_forwarded
    (rs : List DeployRequest) (trace : List BackendReply) :
    totalForwards (processDeploys rs trace) = rs.countP isValidDeploy := by
  induction rs generalizing trace with
  | nil => simp [processDeploys, totalForwards]
  | cons r rs ih =>
    rw [processDeploys]
    simp only [totalForwards, List.map_cons, List.sum_cons] at ih ⊢
    rw [ih, List.countP_cons]
    rw [handler_forwards_length]
    by_cases h : isValidDeploy r <;> simp [h] <;> omega

/-- C2 counterexample: the deploy endpoint's success response carries the
backend's `deployment_url`/`repository_url`/`message` body and no `jobId`
field at all. -/
theorem c2_counterexample_no_jobid :
    (handler sampleRequest [okReply]).response.status = 200
    ∧ lookupField (handler sampleRequest [okReply]).response.body "jobId" = none
    ∧ lookupField (handler sampleRequest [okReply]).response.body "deployment_url"
        = some "https://alice.github.io/site" := by
  refine ⟨rfl, rfl, rfl⟩

/-- C2 (amended): the deploy endpoint answers only after its backend call
has completed, and the answer is either the backend's parsed JSON body
passed through verbatim with status 200, or an error object with exactly
the fields `error` and `detail`; no job identifier is minted and no job
status endpoint exists. -/
theorem c2_amended_response_passthrough
    (req : DeployRequest) (trace : List BackendReply)
    (hv : isValidDeploy req = true) :
    (∃ fields, (trace.headD noReply).json = some fields
        ∧ 200 ≤ (trace.headD noReply).status ∧ (trace.headD noReply).status < 300
        ∧ (handler req trace).response = { status := 200, body := fields })
    ∨ (handler req trace).response.body.map Prod.fst = ["error", "detail"] := by
  rw [isValidDeploy] at hv
  simp only [Bool.and_eq_true, beq_iff_eq, bne_iff_ne, ne_eq] at hv
  obtain ⟨⟨hm, ht⟩, hc⟩ := hv
  rw [handler]
  rw [if_neg (by simp [hm]), if_neg ht, if_neg hc]
  by_cases hok : 200 ≤ (trace.headD noReply).status ∧ (trace.headD noReply).status < 300
  · rw [if_pos hok]
    cases hj : (trace.headD noReply).json with
    | some fields => exact Or.inl ⟨fields, rfl, hok.1, hok.2, rfl⟩
    | none => exact Or.inr rfl
  · rw [if_neg hok]
    exact Or.inr rfl

/-- C2 witness: the response-shape dichotomy evaluated on the concrete
request, both for a parsed success reply and for an error reply. -/
theorem c2_amended_response_passthrough_witness :
    ((∃ fields, ([okReply].headD noReply).json = some fields
        ∧ 200 ≤ ([okReply].headD noReply).status ∧ ([okReply].headD noReply).status < 300
        ∧ (handler sampleRequest [okReply]).response = { status := 200, body := fields })
      ∨ (handler sampleRequest [okReply]).response.body.map Prod.fst = ["error", "detail"]) := by
  exact c2_amended_response_passthrough sampleRequest [okReply] (by decide)

/-- A transient backend failure (503, plain-text body). -/
def unavailableReply : BackendReply :=
  { status := 503, json := none, text := "Service Unavailable" }

/-- C3 counterexample: on a transient 503 that a retrying executor would
absorb (a success reply is next in the trace), the handler instead stops
after its single attempt and surfaces the error to the caller: one forward,
a 503 response with the error body, and the queued success reply never
consumed. -/
theorem c3_counterexample_no_retry :
    (handler sampleRequest [unavailableReply, okReply]).forwards.length = 1
    ∧ (handler sampleRequest [unavailableReply, okReply]).response.status = 503
    ∧ lookupField (handler sampleRequest [unavailableReply, okReply]).response.body "error"
        = some "Deployment failed" := by
  refine ⟨rfl, rfl, rfl⟩

/-- C3 (amended): the deploy endpoint performs no retry at all: a run never
looks past the first backend reply, makes at most one backend attempt
(exactly one when the request is valid), and surfaces any server error
(5xx included) immediately to the caller with the backend's status. -/
theorem c3_amended_single_attempt :
    (∀ (req : DeployRequest) (trace : List BackendReply),
        handler req trace = handler req (trace.take 1))
    ∧ (∀ (req : DeployRequest) (trace : List BackendReply),
        (handler req trace).forwards.length ≤ 1)
    ∧ (∀ (req : DeployRequest) (trace : List BackendReply),
        isValidDeploy req = true → 500 ≤ (trace.headD noReply).status →
        (handler req trace).response.status = (trace.headD noReply).status) := by
  refine ⟨?_, ?_, ?_⟩
  · intro req trace
    have hh : (trace.take 1).headD noReply = trace.headD noReply := by
      cases trace <;> rfl
    rw [handler, handler, hh]
  · intro req trace
    rw [handler_forwards_length]
    by_cases h : isValidDeploy req <;> simp [h]
  · intro req trace hv h5
    rw [isValidDeploy] at hv
    simp only [Bool.and_eq_true, beq_iff_eq, bne_iff_ne, ne_eq] at hv
    obtain ⟨⟨hm, ht⟩, hc⟩ := hv
    rw [handler]
    rw [if_neg (by simp [hm]), if_neg ht, if_neg hc]
    rw [if_neg (by omega)]

/-- C3 witness: the no-retry laws evaluated on the concrete request and the
503-then-200 trace. -/
theorem c3_amended_single_attempt_witness :
    handler sampleRequest [unavailableReply, okReply]
        = handler sampleRequest ([unavailableReply, okReply].take 1)
    ∧ (handler sampleRequest [unavailableReply, okReply]).forwards.length ≤ 1
    ∧ (handler sampleRequest [unavailableReply, okReply]).response.status
        = ([unavailableReply, okReply].headD noReply).status := by
  refine ⟨c3_amended_single_attempt.1 sampleRequest [unavailableReply, okReply],
    c3_amended_single_attempt.2.1 sampleRequest [unavailableReply, okReply],
    c3_amended_single_attempt.2.2 sampleRequest [unavailableReply, okReply]
      (by decide) (by decide)⟩

/-! ## The deploy-callback page (web/pages/deploy-callback.tsx)

The page reads the OAuth redirect's query parameters and, on success,
stores the GitHub user and the access token in `localStorage` before
redirecting back to the deploy step. -/

/-- JS truthiness of an optional query-string parameter: absent and empty
are falsy. -/
def qTruthy : Option String → Bool
  | none => false
  | some s => s != ""

/-- The query parameters of the `deploy-callback` page. -/
structure CallbackQuery where
  error : Option String
  username : Option String
  name : Option String
  avatar_url : Option String
  access_token : Option String
  deriving Repr, DecidableEq

/-- Observable outcome of the callback page effect: the `localStorage`
writes it performs and where it routes next. -/
structure CallbackResult where
  localStorageWrites : List (String × String)
  redirect : String
  deriving Repr, DecidableEq

/-- `JSON.stringify` of the `githubData` object built by the page. -/
def renderGithubUser (username uname avatar : String) : String :=
  "\x7b\"username\":\"" ++ username ++ "\",\"name\":\"" ++ uname
    ++ "\",\"avatar_url\":\"" ++ avatar ++ "\"\x7d"

/-- The `DeployCallback` effect: error redirects away; missing token or
username redirects away; otherwise the user object and the raw token are
written to `localStorage` (keys `github_user` and `github_token`) and the
page routes to the deploy step. -/
def deployCallback (q : CallbackQuery) : CallbackResult :=
  if qTruthy q.error then
    { localStorageWrites := [],
      redirect := "/create?step=deploy&error=" ++ q.error.getD "" }
  else
    let username := q.username.getD ""
    let uname := match q.name with
      | some n => if n = "" then username else n
      | none => username
    let token := q.access_token.getD ""
    if token = "" ∨ username = "" then
      { localStorageWrites := [],
        redirect := "/create?step=deploy&error=Missing+required+GitHub+data" }
    else
      { localStorageWrites :=
          [("github_user", renderGithubUser username uname (q.avatar_url.getD "")),
           ("github_token", token)],
        redirect := "/create?step=deploy&success=true" }

/-- A concrete OAuth callback query carrying an access token. -/
def sampleCallbackQuery : CallbackQuery :=
  { error := none, username := some "alice", name := some "Alice",
    avatar_url := some "https://avatars.example/alice.png",
    access_token := some "gho_secret123" }

/-- C7 counterexample: the `deploy-callback` page hands the access token to
client-side storage: on a successful OAuth redirect it writes the raw token
under the `github_token` key of `localStorage`. -/
theorem c7_counterexample_token_in_localstorage :
    ("github_token", "gho_secret123")
      ∈ (deployCallback sampleCallbackQuery).localStorageWrites := by
  decide

theorem handler_token_blind (req : DeployRequest) (t1 t2 : String)
    (trace : List BackendReply) (h1 : t1 ≠ "") (h2 : t2 ≠ "") :
    (handler { req with access_token := t1 } trace).logs
        = (handler { req with access_token := t2 } trace).logs
    ∧ (handler { req with access_token := t1 } trace).response
        = (handler { req with access_token := t2 } trace).response := by
  by_cases hm : req.method = "POST"
  · by_cases hc : req.content = ""
    · constructor <;> simp [handler, renderBodyLog, hm, hc, h1, h2]
    · by_cases hok : 200 ≤ (trace.head?.getD noReply).status
          ∧ (trace.head?.getD noReply).status < 300
      · cases hj : (trace.head?.getD noReply).json <;> constructor <;>
          simp [handler, renderBodyLog, hm, hc, h1, h2, hok, hj]
      · constructor <;> simp [handler, renderBodyLog, hm, hc, h1, h2, hok]
  · constructor <;> simp [handler, hm]

/-- C7 (amended): the deploy API handler itself neither logs nor returns
the access token — its console output and its HTTP response are identical
for any two non-empty token values (the body log prints `[REDACTED]`) —
but the `deploy-callback` page does deliver the token to the client: it
stores the raw token in `localStorage` under `github_token`. -/
theorem c7_token_handling :
    (∀ (req : DeployRequest) (t1 t2 : String) (trace : List BackendReply),
        t1 ≠ "" → t2 ≠ "" →
        (handler { req with access_token := t1 } trace).logs
            = (handler { req with access_token := t2 } trace).logs
        ∧ (handler { req with access_token := t1 } trace).response
            = (handler { req with access_token := t2 } trace).response)
    ∧ (∀ (q : CallbackQuery) (t : String),
        q.access_token = some t → t ≠ "" → qTruthy q.username = true →
        qTruthy q.error = false →
        ("github_token", t) ∈ (deployCallback q).localStorageWrites) := by
  constructor
  · intro req t1 t2 trace h1 h2
    exact handler_token_blind req t1 t2 trace h1 h2
  · intro q t htok hne hu he
    rw [deployCallback]
    rw [if_neg (by simp [he])]
    have hu2 : q.username.getD "" ≠ "" := by
      cases hq : q.username with
      | none => rw [hq] at hu; simp [qTruthy] at hu
      | some u =>
        rw [hq] at hu
        simp only [qTruthy, bne_iff_ne, ne_eq, decide_eq_true_eq] at hu
        simpa [hq] using hu
    rw [htok]
    rw [if_neg (by simp [hne, hu2])]
    simp

/-- C7 witness: the two token-handling facts evaluated on the concrete
deploy request (tokens `tokA`/`tokB`) and the concrete OAuth callback
query. -/
theorem c7_token_handling_witness :
    ((handler { sampleRequest with access_token := "tokA" } [okReply]).logs
        = (handler { sampleRequest with access_token := "tokB" } [okReply]).logs
      ∧ (handler { sampleRequest with access_token := "tokA" } [okReply]).response
        = (handler { sampleRequest with access_token := "tokB" } [okReply]).response)
    ∧ ("github_token", "gho_secret123")
        ∈ (deployCallback sampleCallbackQuery).localStorageWrites := by
  constructor
  · exact c7_token_handling.1 sampleRequest "tokA" "tokB" [okReply]
      (by decide) (by decide)
  · exact c7_token_handling.2 sampleCallbackQuery "gho_secret123" rfl
      (by decide) (by decide) (by decide)

/-! ## The deploy button and its in-flight guard (web/pages/create.tsx)

The only serialization mechanism in the code is client-side: the deploy
button is rendered `disabled` while `isDeploying` is true, and
`handleDeploy` sets `isDeploying` to true on entry and back to false when
the request settles. -/

/-- The wizard page's deploy-related UI state: the `isDeploying` flag plus
an observer count of deploy requests currently in flight. -/
structure UIState where
  isDeploying : Bool
  outstanding : Nat
  deriving Repr, DecidableEq

/-- Events of the deploy UI: the user clicks the deploy button (a no-op
while the button is disabled), or an in-flight deploy request settles
(`handleDeploy` reaches its end and clears `isDeploying`). -/
inductive UIEvent where
  | clickDeploy
  | deploySettled
  deriving Repr, DecidableEq

/-- One UI transition. -/
def uiStep (s : UIState) : UIEvent → UIState
  | UIEvent.clickDeploy =>
    if s.isDeploying then s
    else { isDeploying := true, outstanding := s.outstanding + 1 }
  | UIEvent.deploySettled =>
    if s.outstanding = 0 then s
    else { isDeploying := false, outstanding := s.outstanding - 1 }

/-- The UI state after a sequence of events, from the initial render
(`isDeploying = false`, nothing in flight). -/
def uiRun (events : List UIEvent) : UIState :=
  events.foldl uiStep { isDeploying := false, outstanding := 0 }

theorem uiStep_invariant (s : UIState) (e : UIEvent)
    (h : s = { isDeploying := false, outstanding := 0 }
        ∨ s = { isDeploying := true, outstanding := 1 }) :
    uiStep s e = { isDeploying := false, outstanding := 0 }
        ∨ uiStep s e = { isDeploying := true, outstanding := 1 } := by
  rcases h with h | h <;> subst h <;> cases e <;> simp [uiStep]

theorem uiFoldl_invariant (es : List UIEvent) (s : UIState)
    (h : s = { isDeploying := false, outstanding := 0 }
        ∨ s = { isDeploying := true, outstanding := 1 }) :
    es.foldl uiStep s = { isDeploying := false, outstanding := 0 }
        ∨ es.foldl uiStep s = { isDeploying := true, outstanding := 1 } := by
  induction es generalizing s with
  | nil => simpa using h
  | cons e es ih =>
    rw [List.foldl_cons]
    exact ih _ (uiStep_invariant s e h)

theorem uiRun_invariant (events : List UIEvent) :
    uiRun events = { isDeploying := false, outstanding := 0 }
        ∨ uiRun events = { isDeploying := true, outstanding := 1 } :=
  uiFoldl_invariant events _ (Or.inl rfl)

/-- C8 (amended): the deploy API endpoint applies no per-repository
serialization — two valid requests for the same repository are both
forwarded to the backend, neither is rejected or queued — and the only
guard in the code is client-side: within one wizard page, the disabled
deploy button keeps at most one deploy request in flight at any time. -/
theorem c8_no_server_serialization :
    (∀ (r1 r2 : DeployRequest) (trace : List BackendReply),
        isValidDeploy r1 = true → isValidDeploy r2 = true →
        totalForwards (processDeploys [r1, r2] trace) = 2)
    ∧ (∀ events : List UIEvent, (uiRun events).outstanding ≤ 1) := by
  constructor
  · intro r1 r2 trace h1 h2
    simp only [processDeploys, totalForwards, List.map_cons, List.map_nil,
      List.sum_cons, List.sum_nil]
    rw [handler_forwards_length, handler_forwards_length, h1, h2]
    simp
  · intro events
    rcases uiRun_invariant events with h | h <;> simp [h]

/-- A second concrete deploy request for the same repository with different
content (a concurrent deploy attempt). -/
def sampleRequestB : DeployRequest :=
  { method := "POST", access_token := "ghs_sampletoken", repo_name := "site",
    theme_id := "nebula", content := "\x7b\"profile\":\x7b\"name\":\"B\"\x7d\x7d" }

/-- C8 counterexample: two concurrent deploy requests for the same
repository are both forwarded and both answered 200 — both pushes happen;
neither request is rejected, queued or serialized behind the other. -/
theorem c8_counterexample_both_pushed :
    totalForwards (processDeploys [sampleRequest, sampleRequestB] [okReply, okReply]) = 2
    ∧ (processDeploys [sampleRequest, sampleRequestB] [okReply, okReply]).map
        (fun h => h.response.status) = [200, 200] := by
  constructor
  · rfl
  · rfl

/-- C8 witness: the amended laws evaluated on the two concrete same-repo
requests and a concrete event trace with two clicks during one in-flight
deploy. -/
theorem c8_no_server_serialization_witness :
    totalForwards (processDeploys [sampleRequest, sampleRequest] [okReply, okReply]) = 2
    ∧ (uiRun [UIEvent.clickDeploy, UIEvent.clickDeploy, UIEvent.deploySettled,
        UIEvent.clickDeploy]).outstanding ≤ 1 := by
  constructor
  · exact c8_no_server_serialization.1 sampleRequest sampleRequest [okReply, okReply]
      (by decide) (by decide)
  · exact c8_no_server_serialization.2 [UIEvent.clickDeploy, UIEvent.clickDeploy,
      UIEvent.deploySettled, UIEvent.clickDeploy]

/-! ## Wizard page state and session persistence (web/pages/create.tsx)

The page keeps its state in React `useState` cells plus `localStorage`;
the update handlers spread the previous state, so a save that supplies only
some fields merges with what is already there. -/

/-- `getDefaultThemeId()` (themes/index.ts). -/
def getDefaultThemeId : String := "lynx"

/-- The `FormState` of the create page; the uploaded `File` is modelled by
its presence. -/
structure FormState where
  resumeFile : Option String
  resumeText : String
  tone : String
  themeId : String
  installationId : Option Int
  userLogin : String
  repoName : String
  portfolioDescription : String
  isPrivateRepo : Bool
  deriving Repr, DecidableEq

/-- The `localStorage` keys the create page uses, as typed slots (values
stored through `JSON.stringify` round-trip to themselves). -/
structure LocalStorage where
  github_installation_id : Option String
  selected_repo_full_name : Option String
  mvp_content : Option MVPContentData
  deriving Repr, DecidableEq

/-- All page state the wizard persists or derives across redirects. -/
structure PageState where
  formState : FormState
  currentStep : String
  selectedRepoFullName : Option String
  mvpContent : Option MVPContentData
  githubInstallSuccess : Bool
  deploymentError : Option String
  localStorage : LocalStorage
  deriving Repr, DecidableEq

/-- `handleInstallation(installationId)`: spreads the previous form state,
setting only `installationId`, and flags the successful installation. -/
def handleInstallation (s : PageState) (installationId : Int) : PageState :=
  { s with
      formState := { s.formState with installationId := some installationId },
      githubInstallSuccess := true }

/-- `handleRepoSelected(repoFullName)`: records the selection in state and
`localStorage`, and when the full name splits into a truthy owner and
repository name, spreads those two fields into the form state. -/
def handleRepoSelected (s : PageState) (repoFullName : String) : PageState :=
  let s1 : PageState :=
    { s with
        selectedRepoFullName := some repoFullName,
        localStorage :=
          { s.localStorage with selected_repo_full_name := some repoFullName } }
  let parts := repoFullName.splitOn "/"
  let userLogin := parts.getD 0 ""
  let repoName := parts.getD 1 ""
  if userLogin ≠ "" ∧ repoName ≠ "" then
    { s1 with formState := { s1.formState with userLogin := userLogin, repoName := repoName } }
  else s1

/-- C5: saves merge rather than overwrite: `handleInstallation` supplies
only the installation id and every other field (repository choice,
generated content, theme, step, stored values) keeps its previous value;
`handleRepoSelected` likewise leaves the installation id and generated
content untouched; repeated installation saves follow last-write-wins; and
the merges compose — a repository save after an installation save keeps the
installation id. -/
theorem c5_session_state_merges :
    (∀ (s : PageState) (i : Int),
        (handleInstallation s i).formState.installationId = some i
        ∧ (handleInstallation s i).formState.userLogin = s.formState.userLogin
        ∧ (handleInstallation s i).formState.repoName = s.formState.repoName
        ∧ (handleInstallation s i).formState.themeId = s.formState.themeId
        ∧ (handleInstallation s i).formState.resumeText = s.formState.resumeText
        ∧ (handleInstallation s i).selectedRepoFullName = s.selectedRepoFullName
        ∧ (handleInstallation s i).mvpContent = s.mvpContent
        ∧ (handleInstallation s i).localStorage = s.localStorage
        ∧ (handleInstallation s i).currentStep = s.currentStep)
    ∧ (∀ (s : PageState) (r : String),
        (handleRepoSelected s r).formState.installationId = s.formState.installationId
        ∧ (handleRepoSelected s r).mvpContent = s.mvpContent
        ∧ (handleRepoSelected s r).selectedRepoFullName = some r)
    ∧ (∀ (s : PageState) (i1 i2 : Int),
        handleInstallation (handleInstallation s i1) i2 = handleInstallation s i2)
    ∧ (∀ (s : PageState) (i : Int) (r : String),
        (handleRepoSelected (handleInstallation s i) r).formState.installationId = some i) := by
  refine ⟨?_, ?_, ?_, ?_⟩
  · intro s i
    exact ⟨rfl, rfl, rfl, rfl, rfl, rfl, rfl, rfl, rfl⟩
  · intro s r
    rw [handleRepoSelected]
    split_ifs <;> exact ⟨rfl, rfl, rfl⟩
  · intro s i1 i2
    rfl
  · intro s i r
    rw [handleRepoSelected]
    split_ifs <;> rfl

/-! ## The GitHub App installation callback effect (web/pages/create.tsx)

The effect reads `installation_id` and `setup_action` from the redirect's
query string; on `install`/`update` with a numerically parseable id it
persists the id, restores the stored repository selection and content, and
jumps the wizard to the deploy step. -/

/-- The query parameters of the installation redirect. -/
structure InstallQuery where
  installation_id : Option String
  setup_action : Option String
  error : Option String
  error_description : Option String
  deriving Repr, DecidableEq

/-- JS whitespace skipped by `parseInt`. -/
def isWS (c : Char) : Bool :=
  (c == ' ') || (c == '\t') || (c == '\n') || (c == '\r')

/-- Accumulate the value of a digit string. -/
def natOfDigits : List Char → Nat → Nat
  | [], acc => acc
  | c :: cs, acc => natOfDigits cs (acc * 10 + (c.toNat - 48))

/-- The longest leading digit run, `NaN` (none) when empty. -/
def parseDigits (l : List Char) : Option Int :=
  let ds := l.takeWhile Char.isDigit
  if ds.isEmpty then none else some ((natOfDigits ds 0 : Nat) : Int)

/-- JS `parseInt(s, 10)`: skip leading whitespace, optional sign, then the
longest leading digit run; `NaN` (none) when no digits follow. -/
def parseIntB10 (s : String) : Option Int :=
  let l := s.data.dropWhile isWS
  if l.headD ' ' = '-' then (parseDigits l.tail).map (fun n => -n)
  else if l.headD ' ' = '+' then parseDigits l.tail
  else parseDigits l

/-- The repository-selection restore step of the installation effect. -/
def restoreRepoSelection (s : PageState) : PageState :=
  match s.localStorage.selected_repo_full_name with
  | some storedRepoName =>
    if storedRepoName ≠ "" ∧ s.selectedRepoFullName = none then
      let s2a : PageState := { s with selectedRepoFullName := some storedRepoName }
      if storedRepoName.contains '/' then
        let parts := storedRepoName.splitOn "/"
        let user := parts.getD 0 ""
        let repo := parts.getD 1 ""
        { s2a with
            formState :=
              { s2a.formState with
                  userLogin := if user = "" then s2a.formState.userLogin else user,
                  repoName := if repo = "" then s2a.formState.repoName else repo } }
      else s2a
    else s
  | none => s

/-- The content restore step of the installation effect. -/
def restoreContent (s : PageState) : PageState :=
  if s.mvpContent = none then
    match s.localStorage.mvp_content with
    | some saved => { s with mvpContent := some saved }
    | none => s
  else s

/-- The installation-callback effect: a falsy `installation_id` does
nothing; on `setup_action` `install`/`update` the id is parsed with
`parseInt` (no change when `NaN`), persisted into the form state and
`localStorage`, stored repository selection and content are restored, and
the wizard moves to the deploy step; an error parameter surfaces a
deployment error message. -/
def handleInstallationQuery (q : InstallQuery) (s : PageState) : PageState :=
  if qTruthy q.installation_id = false then s
  else if q.setup_action = some "install" ∨ q.setup_action = some "update" then
    let idStr := q.installation_id.getD ""
    match parseIntB10 idStr with
    | none => s
    | some n =>
      let s1 : PageState :=
        { s with
            formState := { s.formState with installationId := some n },
            localStorage := { s.localStorage with github_installation_id := some idStr } }
      let s3 := restoreContent (restoreRepoSelection s1)
      { s3 with currentStep := "deploy", githubInstallSuccess := true }
  else if qTruthy q.error then
    { s with
        deploymentError := some ("GitHub App installation failed: "
          ++ (if qTruthy q.error_description then q.error_description.getD ""
              else if qTruthy q.error then q.error.getD "" else "Unknown error")
          ++ ". Please try again or contact support if the issue persists.") }
  else s

theorem restoreRepoSelection_frame (s : PageState) :
    (restoreRepoSelection s).formState.installationId = s.formState.installationId
    ∧ (restoreRepoSelection s).localStorage = s.localStorage
    ∧ (restoreRepoSelection s).mvpContent = s.mvpContent := by
  rw [restoreRepoSelection]
  cases h : s.localStorage.selected_repo_full_name with
  | none => exact ⟨rfl, rfl, rfl⟩
  | some r =>
    simp only
    split_ifs <;> exact ⟨rfl, rfl, rfl⟩

theorem restoreContent_frame (s : PageState) :
    (restoreContent s).formState = s.formState
    ∧ (restoreContent s).localStorage = s.localStorage := by
  rw [restoreContent]
  split_ifs with h
  · cases hm : s.localStorage.mvp_content <;> exact ⟨rfl, rfl⟩
  · exact ⟨rfl, rfl⟩

theorem string_ne_empty_data {s : String} (h : s ≠ "") : s.data ≠ [] := by
  intro hd
  apply h
  cases s with
  | mk l =>
    have hl : l = [] := hd
    rw [hl]

theorem isDigit_not_isWS {c : Char} (h : c.isDigit = true) : isWS c = false := by
  rw [isWS]
  simp only [Bool.or_eq_false_iff, beq_eq_false_iff_ne, ne_eq]
  refine ⟨⟨⟨?_, ?_⟩, ?_⟩, ?_⟩ <;> rintro rfl <;> exact absurd h (by decide)

theorem isDigit_ne_minus {c : Char} (h : c.isDigit = true) : c ≠ '-' := by
  rintro rfl
  exact absurd h (by decide)

theorem isDigit_ne_plus {c : Char} (h : c.isDigit = true) : c ≠ '+' := by
  rintro rfl
  exact absurd h (by decide)

theorem takeWhile_of_all {l : List Char} (h : l.all Char.isDigit = true) :
    l.takeWhile Char.isDigit = l := by
  induction l with
  | nil => rfl
  | cons c cs ih =>
    simp only [List.all_cons, Bool.and_eq_true] at h
    simp [List.takeWhile_cons, h.1, ih h.2]

theorem parseIntB10_of_digits (s : String) (hne : s ≠ "")
    (hd : s.data.all Char.isDigit = true) :
    parseIntB10 s = some ((natOfDigits s.data 0 : Nat) : Int) := by
  rw [parseIntB10]
  have hdrop : s.data.dropWhile isWS = s.data := by
    cases hl2 : s.data with
    | nil => rfl
    | cons c cs =>
      have hd2 := hd
      rw [hl2] at hd2
      simp only [List.all_cons, Bool.and_eq_true] at hd2
      rw [List.dropWhile_cons, if_neg (by simp [isDigit_not_isWS hd2.1])]
  rw [hdrop]
  cases hl : s.data with
  | nil => exact absurd hl (string_ne_empty_data hne)
  | cons c cs =>
    rw [hl] at hd
    have hd' := hd
    simp only [List.all_cons, Bool.and_eq_true] at hd'
    simp only [List.headD_cons]
    rw [if_neg (isDigit_ne_minus hd'.1), if_neg (isDigit_ne_plus hd'.1)]
    rw [parseDigits]
    simp only [takeWhile_of_all hd]
    rw [if_neg (by simp)]

/-- C6: a redirect whose `installation_id` is a (non-empty) digit string
together with `setup_action` `install` or `update` persists exactly that id
into the wizard state — the parsed numeric value lands in
`formState.installationId`, the raw string in `localStorage` — flags the
install as successful and resumes the wizard at the deploy step; and a
redirect whose `installation_id` does not parse as a number (`parseInt`
gives `NaN`) leaves the page state entirely unchanged. -/
theorem c6_installation_callback :
    (∀ (q : InstallQuery) (s : PageState) (idStr : String),
        q.installation_id = some idStr →
        (q.setup_action = some "install" ∨ q.setup_action = some "update") →
        idStr ≠ "" → idStr.data.all Char.isDigit = true →
        (handleInstallationQuery q s).formState.installationId
            = some ((natOfDigits idStr.data 0 : Nat) : Int)
        ∧ (handleInstallationQuery q s).currentStep = "deploy"
        ∧ (handleInstallationQuery q s).localStorage.github_installation_id = some idStr
        ∧ (handleInstallationQuery q s).githubInstallSuccess = true)
    ∧ (∀ (q : InstallQuery) (s : PageState) (idStr : String),
        q.installation_id = some idStr →
        (q.setup_action = some "install" ∨ q.setup_action = some "update") →
        parseIntB10 idStr = none →
        handleInstallationQuery q s = s) := by
  constructor
  · intro q s idStr hq hsetup hne hdig
    rw [handleInstallationQuery, hq]
    rw [if_neg (by simp [qTruthy, hne])]
    rw [if_pos hsetup]
    simp only [Option.getD_some]
    rw [parseIntB10_of_digits idStr hne hdig]
    refine ⟨?_, rfl, ?_, rfl⟩
    · rw [(restoreContent_frame _).1, (restoreRepoSelection_frame _).1]
    · rw [(restoreContent_frame _).2, (restoreRepoSelection_frame _).2.1]
  · intro q s idStr hq hsetup hnan
    rw [handleInstallationQuery, hq]
    by_cases ht : qTruthy (some idStr) = false
    · rw [if_pos ht]
    · rw [if_neg ht, if_pos hsetup]
      simp only [Option.getD_some]
      rw [hnan]

/-- C6 witness: the callback laws evaluated on a concrete state for a
numeric redirect (`installation_id=12345`, `setup_action=install`) and a
non-numeric one (`installation_id=abc`). -/
theorem c6_installation_callback_witness :
    ((handleInstallationQuery
          { installation_id := some "12345", setup_action := some "install",
            error := none, error_description := none }
          { formState :=
              { resumeFile := none, resumeText := "", tone := "professional",
                themeId := getDefaultThemeId, installationId := none, userLogin := "",
                repoName := "", portfolioDescription := "My Quickfolio-generated portfolio site",
                isPrivateRepo := false },
            currentStep := "upload", selectedRepoFullName := none, mvpContent := none,
            githubInstallSuccess := false, deploymentError := none,
            localStorage := { github_installation_id := none,
                              selected_repo_full_name := none,
                              mvp_content := none } }).formState.installationId
        = some ((natOfDigits "12345".data 0 : Nat) : Int))
    ∧ handleInstallationQuery
          { installation_id := some "abc", setup_action := some "update",
            error := none, error_description := none }
          { formState :=
              { resumeFile := none, resumeText := "", tone := "professional",
                themeId := getDefaultThemeId, installationId := none, userLogin := "",
                repoName := "", portfolioDescription := "My Quickfolio-generated portfolio site",
                isPrivateRepo := false },
            currentStep := "upload", selectedRepoFullName := none, mvpContent := none,
            githubInstallSuccess := false, deploymentError := none,
            localStorage := { github_installation_id := none,
                              selected_repo_full_name := none,
                              mvp_content := none } }
        = { formState :=
              { resumeFile := none, resumeText := "", tone := "professional",
                themeId := getDefaultThemeId, installationId := none, userLogin := "",
                repoName := "", portfolioDescription := "My Quickfolio-generated portfolio site",
                isPrivateRepo := false },
            currentStep := "upload", selectedRepoFullName := none, mvpContent := none,
            githubInstallSuccess := false, deploymentError := none,
            localStorage := { github_installation_id := none,
                              selected_repo_full_name := none,
                              mvp_content := none } } := by
  constructor
  · exact (c6_installation_callback.1 _ _ "12345" rfl (Or.inl rfl) (by decide) (by decide)).1
  · exact c6_installation_callback.2 _ _ "abc" rfl (Or.inr rfl) (by decide)

end Quickfolio
